import Mathlib

/-!
Shallow embedding of the rate limiter and selected route handlers of the
life-vault repository.

Sources embedded here:
* src/backend/middleware/rateLimiter.js — the in-memory fixed-window
  rate limiter (module-level Map, the rateLimit middleware factory, the
  periodic cleanup, and the three configured limiter instances);
* src/backend/routes/health.js — the duplicate-submission guard of
  POST /vitals and the file-replacement order of PUT /reports/:reportId
  and PUT /documents/:documentId.

Timestamps are modelled as Nat milliseconds (Date.now()).  The JS
subtraction now - firstRequest is compared against a non-negative
windowMs, so Nat truncated subtraction gives the same branch outcomes as
JS signed arithmetic: a negative JS difference and a truncated-to-zero
Nat difference both fail the strict comparison against windowMs.
-/

/-- Entry of the module-level rateLimitMap: the object
set by rateLimiter.js (count, firstRequest, windowMs). -/
structure RateWindow where
  count : Nat
  firstRequest : Nat
  windowMs : Nat
deriving DecidableEq, Repr

/-- Options captured by the rateLimit middleware factory (windowMs, max,
message).  skipSuccessfulRequests and skipFailedRequests are destructured
by the source but never read, so they are omitted. -/
structure Policy where
  windowMs : Nat
  max : Nat
  message : String
deriving DecidableEq, Repr

/-- The single module-level rateLimitMap of rateLimiter.js line 2, keyed by
the request identifier only.  All middleware instances share it. -/
def Store : Type := String → Option RateWindow

/-- The map before any request has been seen. -/
def emptyStore : Store := fun _ => none

/-- rateLimitMap.set(key, e). -/
def setKey (key : String) (e : RateWindow) (s : Store) : Store :=
  fun k => if k = key then some e else s k

/-- The decision a middleware invocation takes: call next() (allow, nothing
added to the response), or res.status(status).json with the body fields
error, message and retryAfter (deny). -/
inductive Decision where
  | allow : Decision
  | deny (status : Nat) (error : String) (message : String) (retryAfter : Nat) : Decision
deriving DecidableEq, Repr

/-- True when the middleware called next(). -/
def Decision.isAllow : Decision → Bool
  | .allow => true
  | .deny _ _ _ _ => false

/-- Math.ceil((data.firstRequest + data.windowMs - now) / 1000) from
rateLimiter.js line 53.  On the deny path now never exceeds
firstRequest + windowMs, so the Nat ceiling division (x + 999) / 1000
computes exactly the JS value. -/
def retryAfterSeconds (d : RateWindow) (now : Nat) : Nat :=
  (d.firstRequest + d.windowMs - now + 999) / 1000

/-- One invocation of the middleware returned by rateLimit(options),
rateLimiter.js lines 23-62, translated branch by branch:
absent key → insert (1, now, policy window), next();
expired window (now - firstRequest > windowMs) → reset, next();
count >= max → 429 with error, message and retryAfter, map untouched;
otherwise → increment count, next(). -/
def rateLimit (p : Policy) (key : String) (now : Nat) (s : Store) : Decision × Store :=
  match s key with
  | none => (Decision.allow, setKey key ⟨1, now, p.windowMs⟩ s)
  | some data =>
    if data.windowMs < now - data.firstRequest then
      (Decision.allow, setKey key ⟨1, now, p.windowMs⟩ s)
    else if p.max ≤ data.count then
      (Decision.deny 429 "Rate limit exceeded" p.message (retryAfterSeconds data now), s)
    else
      (Decision.allow, setKey key ⟨data.count + 1, data.firstRequest, data.windowMs⟩ s)

/-- The periodic cleanup of rateLimiter.js lines 5-12: delete every entry
with now - firstRequest > windowMs. -/
def sweepExpired (now : Nat) (s : Store) : Store :=
  fun k =>
    match s k with
    | none => none
    | some d => if d.windowMs < now - d.firstRequest then none else some d

/-- Run the middleware once per listed request time, threading the map. -/
def checkMany (p : Policy) (key : String) (ts : List Nat) (s : Store) :
    List Decision × Store :=
  match ts with
  | [] => ([], s)
  | t :: rest =>
    let r := rateLimit p key t s
    let rs := checkMany p key rest r.2
    (r.1 :: rs.1, rs.2)

/-- authRateLimit instance, rateLimiter.js lines 65-69. -/
def authRateLimit : Policy :=
  ⟨15 * 60 * 1000, 100, "Too many authentication attempts, please try again later."⟩

/-- uploadRateLimit instance, rateLimiter.js lines 71-75. -/
def uploadRateLimit : Policy :=
  ⟨60 * 1000, 50, "Too many file uploads, please try again later."⟩

/-- generalRateLimit instance, rateLimiter.js lines 77-81. -/
def generalRateLimit : Policy :=
  ⟨15 * 60 * 1000, 100, "Too many requests, please try again later."⟩

/-- Row of the health_vitals table as used by the duplicate check of
POST /vitals (member_id, vital_type, value, unit, created_at).  The value
column is numeric (the route validates body value with isNumeric) and
created_at is a timestamp; both are modelled as Int so that the SQL
comparison created_at > now - 5000 keeps its signed semantics. -/
structure Vital where
  memberId : String
  vitalType : String
  value : Int
  unit : String
  createdAt : Int
deriving DecidableEq, Repr

/-- Outcome of POST /vitals after member authorization: either the 409
Duplicate submission rejection, or the 201 insert of a new row. -/
inductive VitalOutcome where
  | rejected (status : Nat) (error : String) : VitalOutcome
  | created (v : Vital) : VitalOutcome
deriving DecidableEq, Repr

/-- The duplicate query of health.js lines 142-149: a row with the same
member_id, vital_type, value and unit whose created_at is strictly later
than fiveSecondsAgo = now - 5000. -/
def isRecentDuplicate (db : List Vital) (memberId vitalType : String)
    (value : Int) (unit : String) (now : Int) : Bool :=
  db.any fun v =>
    decide (v.memberId = memberId ∧ v.vitalType = vitalType ∧ v.value = value
      ∧ v.unit = unit ∧ now - 5000 < v.createdAt)

/-- POST /vitals, health.js lines 142-170, after validation and the family
membership check: reject with 409 Duplicate submission when the duplicate
query finds a row, otherwise insert the new row (created_at = now). -/
def postVital (db : List Vital) (memberId vitalType : String) (value : Int)
    (unit : String) (now : Int) : VitalOutcome × List Vital :=
  if isRecentDuplicate db memberId vitalType value unit now then
    (VitalOutcome.rejected 409 "Duplicate submission", db)
  else
    (VitalOutcome.created ⟨memberId, vitalType, value, unit, now⟩,
      db ++ [⟨memberId, vitalType, value, unit, now⟩])

/-- Side effects of an update handler that received a replacement file,
in the order the handler performs them. -/
inductive UpdateEvent where
  | unlinkOldFile : UpdateEvent
  | dbUpdateOk : UpdateEvent
  | dbUpdateFail : UpdateEvent
deriving DecidableEq, Repr

/-- Effect trace of PUT /reports/:reportId when req.file is present,
health.js lines 504-536: the handler first deletes the old stored file
when it exists on disk (fs.unlinkSync, lines 505-512) and only then runs
the UPDATE query (lines 531-536), which may throw into the catch block. -/
def updateReportWithFile (oldFileExists dbOk : Bool) : List UpdateEvent :=
  (if oldFileExists then [UpdateEvent.unlinkOldFile] else [])
    ++ (if dbOk then [UpdateEvent.dbUpdateOk] else [UpdateEvent.dbUpdateFail])

/-- Effect trace of PUT /documents/:documentId when req.file is present,
health.js lines 1004-1044: same order as the report handler, unlink of the
old stored file before the UPDATE query. -/
def updateDocumentWithFile (oldFileExists dbOk : Bool) : List UpdateEvent :=
  (if oldFileExists then [UpdateEvent.unlinkOldFile] else [])
    ++ (if dbOk then [UpdateEvent.dbUpdateOk] else [UpdateEvent.dbUpdateFail])

/-! Helper lemmas shared by several claim theorems. -/

lemma setKey_self (key : String) (e : RateWindow) (s : Store) :
    setKey key e s key = some e := by
  simp [setKey]

lemma setKey_ne (key : String) (e : RateWindow) (s : Store) (k : String)
    (h : k ≠ key) : setKey key e s k = s k := by
  simp [setKey, h]

lemma rateLimit_snd_ne (p : Policy) (key : String) (now : Nat) (s : Store)
    (k : String) (h : k ≠ key) : (rateLimit p key now s).2 k = s k := by
  unfold rateLimit
  cases hk : s key with
  | none => simp [setKey, h]
  | some data =>
    by_cases h1 : data.windowMs < now - data.firstRequest
    · simp [h1, setKey, h]
    · by_cases h2 : p.max ≤ data.count
      · simp [h1, h2]
      · simp [h1, h2, setKey, h]

lemma natCeilDiv_thousand (x : ℕ) :
    (x + 999) / 1000 = Nat.ceil ((x : ℚ) / 1000) := by
  apply le_antisymm
  · have h1 : (x : ℚ) / 1000 ≤ (Nat.ceil ((x : ℚ) / 1000) : ℚ) := Nat.le_ceil _
    have h2 : (x : ℚ) ≤ (Nat.ceil ((x : ℚ) / 1000) : ℚ) * 1000 := by
      rwa [div_le_iff₀ (by norm_num : (0:ℚ) < 1000)] at h1
    have h3 : x ≤ Nat.ceil ((x : ℚ) / 1000) * 1000 := by exact_mod_cast h2
    omega
  · apply Nat.ceil_le.mpr
    have h3 : x ≤ ((x + 999) / 1000) * 1000 := by omega
    have h4 : (x : ℚ) ≤ (((x + 999) / 1000 : ℕ) : ℚ) * 1000 := by exact_mod_cast h3
    rw [div_le_iff₀ (by norm_num : (0:ℚ) < 1000)]
    exact h4

/-- C1: the source keeps one module-level map keyed by the identifier only,
so distinct policies do not maintain independent counters.  Concretely:
from an empty map, identifier X exhausts the upload quota (50 allowed
requests, the 51st denied); afterwards the general limiter denies the 51st
general request from X, whereas without the upload traffic the 51st
general request is allowed. -/
theorem rateLimit_policies_share_one_counter :
    ((checkMany uploadRateLimit "X" (List.replicate 50 0) emptyStore).1.all
        Decision.isAllow = true)
    ∧ ((rateLimit uploadRateLimit "X" 0
          (checkMany uploadRateLimit "X" (List.replicate 50 0) emptyStore).2).1.isAllow
        = false)
    ∧ ((checkMany generalRateLimit "X" (List.replicate 50 0)
          (checkMany uploadRateLimit "X" (List.replicate 50 0) emptyStore).2).1.all
        Decision.isAllow = true)
    ∧ ((rateLimit generalRateLimit "X" 0
          (checkMany generalRateLimit "X" (List.replicate 50 0)
            (checkMany uploadRateLimit "X" (List.replicate 50 0) emptyStore).2).2).1.isAllow
        = false)
    ∧ ((rateLimit generalRateLimit "X" 0
          (checkMany generalRateLimit "X" (List.replicate 50 0) emptyStore).2).1.isAllow
        = true) := by
  decide

/-- C3: in both update handlers the unlink of the old stored file happens
before the UPDATE query runs, so when the update fails the old file is
already gone (and even on success the deletion precedes the row update).
The traces below evaluate the handlers with an existing old file: with a
failing update the trace is unlink-then-fail, the successful update is
never reached after the deletion. -/
theorem updateHandlers_unlink_before_db_update :
    updateReportWithFile true false
      = [UpdateEvent.unlinkOldFile, UpdateEvent.dbUpdateFail]
    ∧ UpdateEvent.unlinkOldFile ∈ updateReportWithFile true false
    ∧ UpdateEvent.dbUpdateOk ∉ updateReportWithFile true false
    ∧ updateReportWithFile true true
      = [UpdateEvent.unlinkOldFile, UpdateEvent.dbUpdateOk]
    ∧ updateDocumentWithFile true false
      = [UpdateEvent.unlinkOldFile, UpdateEvent.dbUpdateFail] := by
  decide

/-- C4: when an entry exists and its window has expired
(now - windowStart > windowLengthMs), the next check allows the request
and resets the entry to windowStart = now, count = 1, whatever the prior
count was. -/
theorem rateLimit_expired_window_resets (p : Policy) (key : String) (now : Nat)
    (s : Store) (d : RateWindow) (hkey : s key = some d)
    (hexp : d.windowMs < now - d.firstRequest) :
    (rateLimit p key now s).1 = Decision.allow
    ∧ (rateLimit p key now s).2 key = some ⟨1, now, p.windowMs⟩ := by
  unfold rateLimit
  rw [hkey]
  simp [hexp, setKey]

theorem rateLimit_expired_window_resets_witness :
    (rateLimit generalRateLimit "X" 2000 (setKey "X" ⟨7, 0, 1000⟩ emptyStore)).1
      = Decision.allow
    ∧ (rateLimit generalRateLimit "X" 2000 (setKey "X" ⟨7, 0, 1000⟩ emptyStore)).2 "X"
      = some ⟨1, 2000, generalRateLimit.windowMs⟩ :=
  rateLimit_expired_window_resets generalRateLimit "X" 2000 _ ⟨7, 0, 1000⟩
    (by simp [setKey]) (by decide)

/-- C5: a denied check returns exactly the 429 decision with
retryAfter = ceil((windowStart + windowLengthMs - now) / 1000); under the
deny precondition now never exceeds windowStart + windowLengthMs (so the
ceiling argument is non-negative), and for a fixed entry the value is
non-increasing as now advances. -/
theorem rateLimit_deny_retryAfter (p : Policy) (key : String) (now : Nat)
    (s : Store) (d : RateWindow) (hkey : s key = some d)
    (hlive : now - d.firstRequest ≤ d.windowMs)
    (hfull : p.max ≤ d.count) :
    (rateLimit p key now s).1
      = Decision.deny 429 "Rate limit exceeded" p.message (retryAfterSeconds d now)
    ∧ now ≤ d.firstRequest + d.windowMs
    ∧ retryAfterSeconds d now
      = Nat.ceil (((d.firstRequest + d.windowMs - now : ℕ) : ℚ) / 1000)
    ∧ ∀ now2 : Nat, now ≤ now2 →
        retryAfterSeconds d now2 ≤ retryAfterSeconds d now := by
  refine ⟨?_, ?_, ?_, ?_⟩
  · unfold rateLimit
    rw [hkey]
    simp [Nat.not_lt.mpr hlive, hfull]
  · omega
  · exact natCeilDiv_thousand (d.firstRequest + d.windowMs - now)
  · intro now2 h2
    unfold retryAfterSeconds
    exact Nat.div_le_div_right
      (Nat.add_le_add_right (Nat.sub_le_sub_left h2 _) 999)

theorem rateLimit_deny_retryAfter_witness :
    (rateLimit ⟨60000, 2, "w"⟩ "X" 20000 (setKey "X" ⟨2, 0, 60000⟩ emptyStore)).1
      = Decision.deny 429 "Rate limit exceeded" "w" 40 :=
  (rateLimit_deny_retryAfter ⟨60000, 2, "w"⟩ "X" 20000 _ ⟨2, 0, 60000⟩
    (by simp [setKey]) (by decide) (by decide)).1

/-- C9: every middleware invocation either calls next() without adding
response content, or responds with status 429 and the exact body fields
error = "Rate limit exceeded", message = the policy rejection message,
and an integer retryAfter. -/
theorem rateLimit_response_shape (p : Policy) (key : String) (now : Nat)
    (s : Store) :
    (rateLimit p key now s).1 = Decision.allow
    ∨ ∃ r : Nat, (rateLimit p key now s).1
        = Decision.deny 429 "Rate limit exceeded" p.message r := by
  unfold rateLimit
  cases hk : s key with
  | none => exact Or.inl rfl
  | some d =>
    by_cases h1 : d.windowMs < now - d.firstRequest
    · exact Or.inl (by simp [h1])
    · by_cases h2 : p.max ≤ d.count
      · exact Or.inr ⟨retryAfterSeconds d now, by simp [h1, h2]⟩
      · exact Or.inl (by simp [h1, h2])

/-- C10: a denied check leaves the whole map unchanged (the denied entry
keeps count, windowStart and windowLengthMs and no other entry is
touched), repeating the very same check gives the very same result, and
any repeat that still falls inside the entry window is denied again: a
denied request consumes no quota. -/
theorem rateLimit_deny_leaves_state_unchanged (p : Policy) (key : String)
    (now : Nat) (s : Store)
    (hdeny : (rateLimit p key now s).1.isAllow = false) :
    (rateLimit p key now s).2 = s
    ∧ rateLimit p key now ((rateLimit p key now s).2) = rateLimit p key now s
    ∧ ∀ (now2 : Nat) (d : RateWindow), s key = some d →
        now2 - d.firstRequest ≤ d.windowMs →
        (rateLimit p key now2 ((rateLimit p key now s).2)).1.isAllow = false := by
  cases hk : s key with
  | none => simp [rateLimit, hk, Decision.isAllow] at hdeny
  | some d =>
    by_cases h1 : d.windowMs < now - d.firstRequest
    · simp [rateLimit, hk, h1, Decision.isAllow] at hdeny
    · by_cases h2 : p.max ≤ d.count
      · have hst : (rateLimit p key now s).2 = s := by
          simp [rateLimit, hk, h1, h2]
        refine ⟨hst, by rw [hst], ?_⟩
        intro now2 d2 hk2 hlive2
        injection hk2 with hdd
        subst hdd
        rw [hst]
        simp [rateLimit, hk, Nat.not_lt.mpr hlive2, h2, Decision.isAllow]
      · simp [rateLimit, hk, h1, h2, Decision.isAllow] at hdeny

theorem rateLimit_deny_leaves_state_unchanged_witness :
    (rateLimit ⟨60000, 2, "w"⟩ "X" 20000 (setKey "X" ⟨2, 0, 60000⟩ emptyStore)).2
      = setKey "X" ⟨2, 0, 60000⟩ emptyStore :=
  (rateLimit_deny_leaves_state_unchanged ⟨60000, 2, "w"⟩ "X" 20000
    (setKey "X" ⟨2, 0, 60000⟩ emptyStore) (by decide)).1

lemma checkMany_all_allow (p : Policy) (key : String) (t0 W : Nat)
    (ts : List Nat) :
    ∀ (s : Store) (c : Nat),
      s key = some ⟨c, t0, W⟩ →
      (∀ t ∈ ts, t - t0 ≤ W) →
      c + ts.length ≤ p.max →
      (checkMany p key ts s).1.all Decision.isAllow = true
      ∧ (checkMany p key ts s).2 key = some ⟨c + ts.length, t0, W⟩ := by
  induction ts with
  | nil =>
    intro s c hkey _ _
    exact ⟨rfl, by simpa using hkey⟩
  | cons t rest ih =>
    intro s c hkey hts hcap
    simp only [List.length_cons] at hcap
    have hin : t - t0 ≤ W := hts t (by simp)
    have hlt : c < p.max := by omega
    have hstep : rateLimit p key t s
        = (Decision.allow, setKey key ⟨c + 1, t0, W⟩ s) := by
      unfold rateLimit
      rw [hkey]
      simp [Nat.not_lt.mpr hin, Nat.not_le.mpr hlt]
    obtain ⟨ha, hk2⟩ := ih (setKey key ⟨c + 1, t0, W⟩ s) (c + 1)
      (setKey_self key _ s) (fun u hu => hts u (by simp [hu])) (by omega)
    have hlen2 : c + (rest.length + 1) = c + 1 + rest.length := by omega
    constructor
    · simp [checkMany, hstep, Decision.isAllow, ha]
    · simp only [checkMany, hstep, List.length_cons, hlen2]
      exact hk2

lemma checkMany_snd_ne (p : Policy) (key : String) (ts : List Nat) (s : Store)
    (k : String) (h : k ≠ key) : (checkMany p key ts s).2 k = s k := by
  induction ts generalizing s with
  | nil => rfl
  | cons t rest ih =>
    calc (checkMany p key (t :: rest) s).2 k
        = (checkMany p key rest (rateLimit p key t s).2).2 k := by
          simp [checkMany]
      _ = (rateLimit p key t s).2 k := ih _
      _ = s k := rateLimit_snd_ne p key t s k h

lemma rateLimit_eq_of_eq_at_key (p : Policy) (key : String) (now : Nat)
    (s1 s2 : Store) (h : s1 key = s2 key) :
    (rateLimit p key now s1).1 = (rateLimit p key now s2).1
    ∧ (rateLimit p key now s1).2 key = (rateLimit p key now s2).2 key := by
  unfold rateLimit
  rw [h]
  cases hk : s2 key with
  | none => simp [setKey]
  | some d =>
    by_cases h1 : d.windowMs < now - d.firstRequest
    · simp [h1, setKey]
    · by_cases h2 : p.max ≤ d.count
      · simp [h1, h2, h, hk]
      · simp [h1, h2, setKey]

/-- C2: from a fresh identifier, with every request time inside the window
opened by the first request at t0, the requests numbered 1..max are all
allowed (the map then holds count = max) and the (max+1)-th request is
denied; and the end-to-end example of the spec: policy
windowMs = 60000, max = 2 gives Allow, Allow, Deny(retryAfter = 40) at
t = 0, 10s, 20s, then Allow with a fresh window of count 1 at t = 61s. -/
theorem rateLimit_quota_boundary (p : Policy) (key : String) (s : Store)
    (t0 : Nat) (ts : List Nat) (tN : Nat)
    (hfresh : s key = none)
    (hlen : ts.length + 1 = p.max)
    (hts : ∀ t ∈ ts, t - t0 ≤ p.windowMs)
    (htN : tN - t0 ≤ p.windowMs) :
    ((checkMany p key (t0 :: ts) s).1.all Decision.isAllow = true
      ∧ (checkMany p key (t0 :: ts) s).2 key = some ⟨p.max, t0, p.windowMs⟩
      ∧ (rateLimit p key tN (checkMany p key (t0 :: ts) s).2).1.isAllow = false)
    ∧ (∀ m : String,
        (checkMany ⟨60000, 2, m⟩ "X" [0, 10000, 20000, 61000] emptyStore).1
          = [Decision.allow, Decision.allow,
             Decision.deny 429 "Rate limit exceeded" m 40, Decision.allow]
        ∧ (checkMany ⟨60000, 2, m⟩ "X" [0, 10000] emptyStore).2 "X"
          = some ⟨2, 0, 60000⟩
        ∧ (checkMany ⟨60000, 2, m⟩ "X" [0, 10000, 20000, 61000] emptyStore).2 "X"
          = some ⟨1, 61000, 60000⟩) := by
  constructor
  · have hstep : rateLimit p key t0 s
        = (Decision.allow, setKey key ⟨1, t0, p.windowMs⟩ s) := by
      unfold rateLimit
      rw [hfresh]
    obtain ⟨ha, hk2⟩ := checkMany_all_allow p key t0 p.windowMs ts
      (setKey key ⟨1, t0, p.windowMs⟩ s) 1 (setKey_self key _ s) hts (by omega)
    have hmax : 1 + ts.length = p.max := by omega
    have hfin : (checkMany p key (t0 :: ts) s).2 key
        = some ⟨p.max, t0, p.windowMs⟩ := by
      simp only [checkMany, hstep]
      rw [hk2, hmax]
    refine ⟨?_, hfin, ?_⟩
    · simp [checkMany, hstep, Decision.isAllow, ha]
    · unfold rateLimit
      rw [hfin]
      simp [Nat.not_lt.mpr htN, Decision.isAllow]
  · intro m
    refine ⟨?_, ?_, ?_⟩ <;>
      simp [checkMany, rateLimit, setKey, emptyStore, retryAfterSeconds]

theorem rateLimit_quota_boundary_witness :
    (rateLimit ⟨60000, 2, "w"⟩ "X" 20000
        (checkMany ⟨60000, 2, "w"⟩ "X" [0, 10000] emptyStore).2).1.isAllow
      = false :=
  (rateLimit_quota_boundary ⟨60000, 2, "w"⟩ "X" emptyStore 0 [10000] 20000 rfl rfl
    (by decide) (by decide)).1.2.2

/-- C6: an entry whose window has fully expired is removed by the sweep,
and a later check for that identifier produces the same decision and the
same resulting map whether the stale entry was swept (absent) or left in
place: both paths reset the entry to count 1 at the check time. -/
theorem rateLimit_sweep_agnostic (p : Policy) (key : String) (now tsweep : Nat)
    (s1 s2 : Store) (d : RateWindow)
    (h1 : s1 key = some d) (h2 : s2 key = none)
    (hrest : ∀ k, k ≠ key → s1 k = s2 k)
    (hexp : d.windowMs < now - d.firstRequest)
    (hswe : d.windowMs < tsweep - d.firstRequest) :
    sweepExpired tsweep s1 key = none
    ∧ (rateLimit p key now s1).1 = (rateLimit p key now s2).1
    ∧ ∀ k, (rateLimit p key now s1).2 k = (rateLimit p key now s2).2 k := by
  refine ⟨?_, ?_, ?_⟩
  · simp [sweepExpired, h1, hswe]
  · simp [rateLimit, h1, h2, hexp]
  · intro k
    by_cases hkk : k = key
    · subst hkk
      simp [rateLimit, h1, h2, hexp, setKey]
    · rw [rateLimit_snd_ne p key now s1 k hkk, rateLimit_snd_ne p key now s2 k hkk]
      exact hrest k hkk

theorem rateLimit_sweep_agnostic_witness :
    sweepExpired 3000 (setKey "X" ⟨5, 0, 1000⟩ emptyStore) "X" = none
    ∧ (rateLimit generalRateLimit "X" 3000 (setKey "X" ⟨5, 0, 1000⟩ emptyStore)).1
      = (rateLimit generalRateLimit "X" 3000 emptyStore).1 := by
  have h := rateLimit_sweep_agnostic generalRateLimit "X" 3000 3000
    (setKey "X" ⟨5, 0, 1000⟩ emptyStore) emptyStore ⟨5, 0, 1000⟩
    (by simp [setKey]) rfl (fun k hk => by simp [setKey, emptyStore, hk])
    (by decide) (by decide)
  exact ⟨h.1, h.2.1⟩

/-- C7: POST /vitals rejects with 409 Duplicate submission exactly when a
row with the same member, vital type, value and unit was created within
the last 5 seconds; a rejection leaves the table unchanged, and otherwise
the new row is inserted. -/
theorem postVital_duplicate_guard (db : List Vital) (memberId vitalType : String)
    (value : Int) (unit : String) (now : Int) :
    ((postVital db memberId vitalType value unit now).1
        = VitalOutcome.rejected 409 "Duplicate submission"
      ↔ ∃ v ∈ db, v.memberId = memberId ∧ v.vitalType = vitalType
          ∧ v.value = value ∧ v.unit = unit ∧ now - 5000 < v.createdAt)
    ∧ ((postVital db memberId vitalType value unit now).1
        = VitalOutcome.rejected 409 "Duplicate submission" →
        (postVital db memberId vitalType value unit now).2 = db)
    ∧ ((postVital db memberId vitalType value unit now).1
        = VitalOutcome.created ⟨memberId, vitalType, value, unit, now⟩ →
        (postVital db memberId vitalType value unit now).2
          = db ++ [⟨memberId, vitalType, value, unit, now⟩]) := by
  by_cases hdup : isRecentDuplicate db memberId vitalType value unit now = true
  · have hex := hdup
    simp only [isRecentDuplicate, List.any_eq_true, decide_eq_true_eq] at hex
    refine ⟨⟨fun _ => hex, fun _ => by simp [postVital, hdup]⟩,
      fun _ => by simp [postVital, hdup], fun hc => ?_⟩
    simp [postVital, hdup] at hc
  · refine ⟨⟨fun hr => ?_, fun hex => ?_⟩, fun hr => ?_,
      fun _ => by simp [postVital, hdup]⟩
    · simp [postVital, hdup] at hr
    · exfalso
      apply hdup
      simp only [isRecentDuplicate, List.any_eq_true, decide_eq_true_eq]
      exact hex
    · simp [postVital, hdup] at hr

theorem postVital_duplicate_guard_witness :
    (postVital [⟨"m1", "weight", 70, "kg", 8000⟩] "m1" "weight" 70 "kg" 10000).1
      = VitalOutcome.rejected 409 "Duplicate submission" :=
  (postVital_duplicate_guard [⟨"m1", "weight", 70, "kg", 8000⟩]
      "m1" "weight" 70 "kg" 10000).1.mpr
    ⟨⟨"m1", "weight", 70, "kg", 8000⟩, by simp, rfl, rfl, rfl, rfl, by decide⟩

/-- C8: checks for identifier A never touch any other identifier: after an
arbitrary sequence of checks for A, identifier B (distinct from A) still
has the map entry it had before, and a subsequent check for B under any
policy produces the same decision and the same entry for B as it would
have produced had the checks for A not occurred. -/
theorem rateLimit_identifier_independence (p q : Policy) (A B : String)
    (hAB : A ≠ B) (ts : List Nat) (s : Store) (now : Nat) :
    (checkMany p A ts s).2 B = s B
    ∧ (rateLimit q B now ((checkMany p A ts s).2)).1
      = (rateLimit q B now s).1
    ∧ (rateLimit q B now ((checkMany p A ts s).2)).2 B
      = (rateLimit q B now s).2 B := by
  have hframe : (checkMany p A ts s).2 B = s B :=
    checkMany_snd_ne p A ts s B hAB.symm
  obtain ⟨hd, hk⟩ := rateLimit_eq_of_eq_at_key q B now _ s hframe
  exact ⟨hframe, hd, hk⟩

theorem rateLimit_identifier_independence_witness :
    (rateLimit generalRateLimit "B" 0
        ((checkMany uploadRateLimit "A" (List.replicate 50 0) emptyStore).2)).1
      = (rateLimit generalRateLimit "B" 0 emptyStore).1 :=
  (rateLimit_identifier_independence uploadRateLimit generalRateLimit "A" "B"
    (by decide) (List.replicate 50 0) emptyStore 0).2.1
